import Mathlib

/- Shallow embedding of the rusttex LaTeX document builder (src/lib.rs,
src/models.rs).  The Rust `ContentBuilder` owns a growable `String` buffer;
every operation appends a formatted fragment via `push_str`.  Mutation is
modelled by explicit state passing: each operation takes and returns a
`ContentBuilder`.  The polymorphic `StringOrBuilder` argument (either a
string slice or a closure receiving a fresh nested builder) is modelled by
the sum type `StrOrBuilder`.  Literal braces in LaTeX output are written
with hexadecimal escapes in Lean string literals. -/

namespace Rusttex

/- models.rs: `DocumentClass` enum. -/
inductive DocumentClass where
  | Article
  | Book
  | Letter
  | Report
  | Slides
  | Custom (custom : String)

/- models.rs: `impl ToString for DocumentClass`. -/
def DocumentClass.toString : DocumentClass → String
  | .Article => "article"
  | .Book => "book"
  | .Letter => "letter"
  | .Report => "report"
  | .Slides => "slides"
  | .Custom custom => custom

/- models.rs: `ColorModel` enum. -/
inductive ColorModel where
  | CMYK
  | Gray
  | RGB
  | RGBFull
  | Named

/- models.rs: `impl ToString for ColorModel`. -/
def ColorModel.toString : ColorModel → String
  | .CMYK => "cmyk"
  | .Gray => "gray"
  | .RGB => "rgb"
  | .RGBFull => "RGB"
  | .Named => "named"

/- models.rs: `FileContentsOption` enum. -/
inductive FileContentsOption where
  | Force
  | Overwrite
  | NoHeader
  | NoSearch
  | Custom (custom : String)

/- models.rs: `impl ToString for FileContentsOption`. -/
def FileContentsOption.toString : FileContentsOption → String
  | .Force => "force"
  | .Overwrite => "overwrite"
  | .NoHeader => "noheader"
  | .NoSearch => "nosearch"
  | .Custom custom => custom

/- models.rs: parameter records for environments.  Fields hold the already
merged strings, as in the Rust structs after `new` applied `merge_str`. -/
structure ArrayParams where
  cols : String
  pos : Option String

structure FigureParams where
  placement : String

structure FileContentsParams where
  filename : String
  option : Option FileContentsOption

structure ListParams where
  labeling : String
  spacing : String

structure MinipageParams where
  position : Option String
  height : Option String
  inner_pos : Option String
  width : String

structure PictureParams where
  size : String × String
  offset : Option (String × String)

structure TableParams where
  placement : Option String

structure TabularParams where
  cols : String
  pos : Option String

structure TheBubliographyParams where
  widest_label : String

/- models.rs: `Environment` enum (parameters carried by value instead of
by reference). -/
inductive Environment where
  | Abstract
  | Array (params : ArrayParams)
  | Center
  | Description
  | DisplayMath
  | Document
  | Enumerate
  | EqnArray
  | Equation
  | Figure (params : FigureParams)
  | FileContents (params : FileContentsParams)
  | FlushLeft
  | FlushRight
  | Itemize
  | List (params : ListParams)
  | Math
  | Minipage (params : MinipageParams)
  | Picture (params : PictureParams)
  | Quotation
  | Quote
  | Tabbing
  | Table (params : TableParams)
  | Tabular (params : TabularParams)
  | TheBibliography (params : TheBubliographyParams)
  | Theorem
  | TitlePage
  | TrivList
  | Verbatim
  | Verse

/- models.rs: `impl ToString for Environment`. -/
def Environment.toString : Environment → String
  | .Abstract => "abstract"
  | .Array _ => "array"
  | .Center => "center"
  | .Description => "description"
  | .DisplayMath => "displaymath"
  | .Document => "document"
  | .Enumerate => "enumerate"
  | .EqnArray => "eqnarray"
  | .Equation => "equation"
  | .Figure _ => "figure"
  | .FileContents _ => "filecontents"
  | .FlushLeft => "flushleft"
  | .FlushRight => "flushright"
  | .Itemize => "itemize"
  | .List _ => "list"
  | .Math => "math"
  | .Minipage _ => "minipage"
  | .Picture _ => "picture"
  | .Quotation => "quotation"
  | .Quote => "quote"
  | .Tabbing => "tabbing"
  | .Table _ => "table"
  | .Tabular _ => "tabular"
  | .TheBibliography _ => "thebibliography"
  | .Theorem => "theorem"
  | .TitlePage => "titlepage"
  | .TrivList => "trivlist"
  | .Verbatim => "verbatim"
  | .Verse => "verse"

/- lib.rs: `pub struct ContentBuilder { content: String }`. -/
structure ContentBuilder where
  content : String

/- lib.rs: `ContentBuilder::new`. -/
def ContentBuilder.new : ContentBuilder :=
  { content := "" }

/- lib.rs: `ContentBuilder::build_document` returns the accumulated buffer. -/
def ContentBuilder.build_document (b : ContentBuilder) : String :=
  b.content

/- Rust `self.content.push_str(s)` on the builder state. -/
def ContentBuilder.push_str (b : ContentBuilder) (s : String) : ContentBuilder :=
  { content := b.content ++ s }

/- lib.rs: the `StringOrBuilder` trait, implemented for string slices and
for closures `FnOnce(&mut ContentBuilder)`. -/
inductive StrOrBuilder where
  | lit (s : String)
  | builder (f : ContentBuilder → ContentBuilder)

/- lib.rs: `merge_str`.  A literal merges to itself; a closure runs on a
fresh builder and merges to that builder output. -/
def StrOrBuilder.merge_str : StrOrBuilder → String
  | .lit s => s
  | .builder f => (f ContentBuilder.new).build_document

namespace ContentBuilder

/- lib.rs: `set_document_class`.  Options are modelled by their string
forms (the Rust code maps each boxed `ToString` to its string and joins
with commas). -/
def set_document_class (b : ContentBuilder) (document_class : DocumentClass)
    (options : List String) : ContentBuilder :=
  if options.isEmpty then
    b.push_str ("\\documentclass\x7b" ++ document_class.toString ++ "\x7d\n")
  else
    b.push_str ("\\documentclass[" ++ String.intercalate "," options ++ "]\x7b" ++
      document_class.toString ++ "\x7d\n")

/- lib.rs: `use_package`. -/
def use_package (b : ContentBuilder) (package : String)
    (options : List String) : ContentBuilder :=
  if options.isEmpty then
    b.push_str ("\\usepackage\x7b" ++ package ++ "\x7d\n")
  else
    b.push_str ("\\usepackage[" ++ String.intercalate "," options ++ "]\x7b" ++
      package ++ "\x7d\n")

/- lib.rs: `add_literal`. -/
def add_literal (b : ContentBuilder) (text : String) : ContentBuilder :=
  b.push_str text

/- lib.rs: `begin_document`. -/
def begin_document (b : ContentBuilder) : ContentBuilder :=
  b.push_str "\\begin\x7bdocument\x7d\n"

/- lib.rs: `end_document`. -/
def end_document (b : ContentBuilder) : ContentBuilder :=
  b.push_str "\\end\x7bdocument\x7d\n"

/- lib.rs: `title`. -/
def title (b : ContentBuilder) (t : StrOrBuilder) : ContentBuilder :=
  b.push_str ("\\title\x7b" ++ t.merge_str ++ "\x7d\n")

/- lib.rs: `author`. -/
def author (b : ContentBuilder) (a : StrOrBuilder) : ContentBuilder :=
  b.push_str ("\\author\x7b" ++ a.merge_str ++ "\x7d\n")

/- lib.rs: `maketitle`. -/
def maketitle (b : ContentBuilder) : ContentBuilder :=
  b.push_str "\\maketitle\n"

/- lib.rs: `text_bold`. -/
def text_bold (b : ContentBuilder) (text : StrOrBuilder) : ContentBuilder :=
  b.push_str ("\\textbf\x7b" ++ text.merge_str ++ "\x7d")

/- lib.rs: `text_italic`. -/
def text_italic (b : ContentBuilder) (text : StrOrBuilder) : ContentBuilder :=
  b.push_str ("\\textit\x7b" ++ text.merge_str ++ "\x7d")

/- lib.rs: `text_underline`. -/
def text_underline (b : ContentBuilder) (text : StrOrBuilder) : ContentBuilder :=
  b.push_str ("\\underline\x7b" ++ text.merge_str ++ "\x7d")

/- lib.rs: `new_line`. -/
def new_line (b : ContentBuilder) : ContentBuilder :=
  b.push_str "\\\\\n"

/- lib.rs: `label`. -/
def label (b : ContentBuilder) (l : StrOrBuilder) : ContentBuilder :=
  b.push_str ("\\label\x7b" ++ l.merge_str ++ "\x7d\n")

/- lib.rs: `section` (named sectionCmd because section is a Lean keyword). -/
def sectionCmd (b : ContentBuilder) (t : StrOrBuilder) : ContentBuilder :=
  b.push_str ("\\section\x7b" ++ t.merge_str ++ "\x7d\n")

/- lib.rs: `subsection`. -/
def subsection (b : ContentBuilder) (t : StrOrBuilder) : ContentBuilder :=
  b.push_str ("\\subsection\x7b" ++ t.merge_str ++ "\x7d\n")

/- lib.rs: `subsubsection`. -/
def subsubsection (b : ContentBuilder) (t : StrOrBuilder) : ContentBuilder :=
  b.push_str ("\\subsubsection\x7b" ++ t.merge_str ++ "\x7d\n")

/- lib.rs: `paragraph`. -/
def paragraph (b : ContentBuilder) (text : StrOrBuilder) : ContentBuilder :=
  b.push_str ("\\paragraph\x7b" ++ text.merge_str ++ "\x7d\n")

/- lib.rs: `subparagraph`. -/
def subparagraph (b : ContentBuilder) (text : StrOrBuilder) : ContentBuilder :=
  b.push_str ("\\subparagraph\x7b" ++ text.merge_str ++ "\x7d\n")

/- lib.rs: `footnote`. -/
def footnote (b : ContentBuilder) (text : StrOrBuilder) : ContentBuilder :=
  b.push_str ("\\footnote\x7b" ++ text.merge_str ++ "\x7d")

/- lib.rs: `cite`. -/
def cite (b : ContentBuilder) (citation : StrOrBuilder)
    (subcitation : Option StrOrBuilder) : ContentBuilder :=
  let subcitation_str :=
    match subcitation with
    | some sub => "[" ++ sub.merge_str ++ "]"
    | none => ""
  b.push_str ("\\cite" ++ subcitation_str ++ "\x7b" ++ citation.merge_str ++ "\x7d")

/- lib.rs: `ref_label`. -/
def ref_label (b : ContentBuilder) (l : StrOrBuilder) : ContentBuilder :=
  b.push_str ("\\ref\x7b" ++ l.merge_str ++ "\x7d")

/- lib.rs: `text_color`. -/
def text_color (b : ContentBuilder) (text : StrOrBuilder) (color : StrOrBuilder)
    (color_model : Option ColorModel) : ContentBuilder :=
  let color_model_str :=
    match color_model with
    | some model => "[" ++ model.toString ++ "]"
    | none => ""
  b.push_str ("\\textcolor" ++ color_model_str ++ "\x7b" ++ color.merge_str ++
    "\x7d\x7b" ++ text.merge_str ++ "\x7d")

/- lib.rs: `hspace`. -/
def hspace (b : ContentBuilder) (length : StrOrBuilder) : ContentBuilder :=
  b.push_str ("\\hspace\x7b" ++ length.merge_str ++ "\x7d")

/- lib.rs: `vspace`. -/
def vspace (b : ContentBuilder) (length : StrOrBuilder) : ContentBuilder :=
  b.push_str ("\\vspace\x7b" ++ length.merge_str ++ "\x7d")

/- lib.rs: `include` (named includeCmd because include is a Lean keyword). -/
def includeCmd (b : ContentBuilder) (filename : StrOrBuilder) : ContentBuilder :=
  b.push_str ("\\include\x7b" ++ filename.merge_str ++ "\x7d\n")

/- lib.rs: `input`. -/
def input (b : ContentBuilder) (filename : StrOrBuilder) : ContentBuilder :=
  b.push_str ("\\input\x7b" ++ filename.merge_str ++ "\x7d\n")

/- lib.rs: `clear_page`. -/
def clear_page (b : ContentBuilder) : ContentBuilder :=
  b.push_str "\\clearpage\n"

/- lib.rs: `new_page`. -/
def new_page (b : ContentBuilder) : ContentBuilder :=
  b.push_str "\\newpage\n"

/- lib.rs: `line_break`. -/
def line_break (b : ContentBuilder) : ContentBuilder :=
  b.push_str "\\linebreak\n"

/- lib.rs: `page_break`. -/
def page_break (b : ContentBuilder) : ContentBuilder :=
  b.push_str "\\pagebreak\n"

/- lib.rs: `no_indent`. -/
def no_indent (b : ContentBuilder) : ContentBuilder :=
  b.push_str "\\noindent\n"

/- lib.rs: `centering`. -/
def centering (b : ContentBuilder) : ContentBuilder :=
  b.push_str "\\centering\n"

/- lib.rs: `itemize`. -/
def itemize (b : ContentBuilder) (c : StrOrBuilder) : ContentBuilder :=
  b.push_str ("\\item \x7b" ++ c.merge_str ++ "\x7d\n")

/- lib.rs: `env`.  One arm per group of the Rust match; each arm performs
the same three `push_str` calls as the source. -/
def env (b : ContentBuilder) (e : Environment) (content : StrOrBuilder) :
    ContentBuilder :=
  match e with
  | .Abstract | .Center | .Description | .DisplayMath | .Document
  | .Enumerate | .EqnArray | .Equation | .FlushLeft | .FlushRight
  | .Itemize | .Math | .Quotation | .Quote | .Tabbing | .Theorem
  | .TitlePage | .TrivList | .Verbatim | .Verse =>
    (((b.push_str ("\\begin\x7b" ++ e.toString ++ "\x7d\n")).push_str
      (content.merge_str ++ "\n")).push_str
      ("\\end\x7b" ++ e.toString ++ "\x7d\n"))
  | .Array params =>
    let pos :=
      match params.pos with
      | some p => "[" ++ p ++ "]"
      | none => ""
    (((b.push_str ("\\begin\x7b" ++ e.toString ++ "\x7d" ++ pos ++ "\x7b" ++
        params.cols ++ "\x7d\n")).push_str
      (content.merge_str ++ "\n")).push_str
      ("\\end\x7b" ++ e.toString ++ "\x7d\n"))
  | .Figure params =>
    (((b.push_str ("\\begin\x7b" ++ e.toString ++ "\x7d" ++ params.placement ++
        "\n")).push_str
      (content.merge_str ++ "\n")).push_str
      ("\\end\x7b" ++ e.toString ++ "\x7d\n"))
  | .FileContents params =>
    let options :=
      match params.option with
      | some o => "[" ++ o.toString ++ "]"
      | none => ""
    (((b.push_str ("\\begin\x7b" ++ e.toString ++ "\x7d" ++ options ++ "\x7b" ++
        params.filename ++ "\x7d\n")).push_str
      (content.merge_str ++ "\n")).push_str
      ("\\end\x7b" ++ e.toString ++ "\x7d\n"))
  | .List params =>
    (((b.push_str ("\\begin\x7b" ++ e.toString ++ "\x7d" ++ params.labeling ++
        params.spacing ++ "\n")).push_str
      (content.merge_str ++ "\n")).push_str
      ("\\end\x7b" ++ e.toString ++ "\x7d\n"))
  | .Minipage params =>
    let position :=
      match params.position with
      | some p => "[" ++ p ++ "]"
      | none => "[]"
    let height :=
      match params.height with
      | some h => "[" ++ h ++ "]"
      | none => "[]"
    let inner_pos :=
      match params.inner_pos with
      | some i => "[" ++ i ++ "]"
      | none => "[]"
    (((b.push_str ("\\begin\x7b" ++ e.toString ++ "\x7d" ++ position ++ height ++
        inner_pos ++ "\x7b" ++ params.width ++ "\x7d\n")).push_str
      (content.merge_str ++ "\n")).push_str
      ("\\end\x7b" ++ e.toString ++ "\x7d\n"))
  | .Picture params =>
    let size := "(" ++ params.size.1 ++ "," ++ params.size.2 ++ ")"
    let offset :=
      match params.offset with
      | some o => "(" ++ o.1 ++ "," ++ o.2 ++ ")"
      | none => ""
    (((b.push_str ("\\begin\x7b" ++ e.toString ++ "\x7d" ++ size ++ offset ++
        "\n")).push_str
      (content.merge_str ++ "\n")).push_str
      ("\\end\x7b" ++ e.toString ++ "\x7d\n"))
  | .Table params =>
    let placement :=
      match params.placement with
      | some p => "[" ++ p ++ "]"
      | none => ""
    (((b.push_str ("\\begin\x7b" ++ e.toString ++ "\x7d" ++ placement ++
        "\n")).push_str
      (content.merge_str ++ "\n")).push_str
      ("\\end\x7b" ++ e.toString ++ "\x7d\n"))
  | .Tabular params =>
    let pos :=
      match params.pos with
      | some p => "[" ++ p ++ "]"
      | none => ""
    (((b.push_str ("\\begin\x7b" ++ e.toString ++ "\x7d" ++ pos ++ "\x7b" ++
        params.cols ++ "\x7d\n")).push_str
      (content.merge_str ++ "\n")).push_str
      ("\\end\x7b" ++ e.toString ++ "\x7d\n"))
  | .TheBibliography params =>
    (((b.push_str ("\\begin\x7b" ++ e.toString ++ "\x7d\x7b" ++
        params.widest_label ++ "\x7d\n")).push_str
      (content.merge_str ++ "\n")).push_str
      ("\\end\x7b" ++ e.toString ++ "\x7d\n"))

end ContentBuilder

/- Spec-side definition.  Modelled from the spec sentence describing the
directive format: a backslash, the directive name, a single bracket pair
holding the options comma-joined in input order when the option list is
nonempty (no bracket segment when it is empty), then the keyword in
braces and a newline. -/
def directiveFragment (name : String) (options : List String)
    (keyword : String) : String :=
  if options.isEmpty then
    "\\" ++ name ++ "\x7b" ++ keyword ++ "\x7d\n"
  else
    "\\" ++ name ++ "[" ++ String.intercalate "," options ++ "]\x7b" ++
      keyword ++ "\x7d\n"

/- The bracket segment a minipage optional argument contributes: the value
in brackets when supplied, an empty bracket pair when absent (this is the
map_or with default "[]" in the Minipage arm of env). -/
def bracketArgOrEmpty : Option String → String
  | some s => "[" ++ s ++ "]"
  | none => "[]"

/- Helper: push_str appends to the buffer. -/
theorem content_push_str (b : ContentBuilder) (s : String) :
    (b.push_str s).content = b.content ++ s := rfl

/- Helper: three successive push_str calls append the concatenation. -/
theorem content_push3 (b : ContentBuilder) (s1 s2 s3 : String) :
    (((b.push_str s1).push_str s2).push_str s3).content =
      b.content ++ (s1 ++ s2 ++ s3) := by
  simp [ContentBuilder.push_str, String.append_assoc]

/- Helper: splitting the fused close-brace-newline literal. -/
theorem brace_nl_eq : ("\x7d\n" : String) = "\x7d" ++ "\n" := rfl

/- Helper: splitting the fused close-brace-open-brace literal. -/
theorem brace_brace_eq : ("\x7d\x7b" : String) = "\x7d" ++ "\x7b" := rfl

/-- C1: set_document_class with DocumentClass.Article and an empty option
list, then use_package "amsmath" with the single option "fleqn", then
begin_document, then end_document, on a fresh builder, makes
build_document return exactly the four-line LaTeX preamble string (the
documentclass line, the bracketed usepackage line, and the begin and end
document lines, each terminated by a newline). -/
theorem article_amsmath_example_document :
    ((((ContentBuilder.new.set_document_class .Article []).use_package
      "amsmath" ["fleqn"]).begin_document).end_document).build_document =
      "\\documentclass\x7barticle\x7d\n\\usepackage[fleqn]\x7bamsmath\x7d\n\\begin\x7bdocument\x7d\n\\end\x7bdocument\x7d\n" := by
  decide

/-- C2: every set_document_class and use_package call appends exactly the
directive fragment of the spec: with an empty option list there is no
bracket segment, and with a nonempty option list there is exactly one
bracket pair holding the option strings comma-joined in input order,
before the braced keyword. -/
theorem directive_option_bracket_format (b : ContentBuilder)
    (document_class : DocumentClass) (package : String)
    (options : List String) :
    (b.set_document_class document_class options).content =
      b.content ++ directiveFragment "documentclass" options
        document_class.toString ∧
    (b.use_package package options).content =
      b.content ++ directiveFragment "usepackage" options package := by
  constructor
  · cases options with
    | nil => rfl
    | cons o os => rfl
  · cases options with
    | nil => rfl
    | cons o os => rfl

/-- C3: for every Environment variant and content argument, env appends
exactly three ordered fragments: an opening marker carrying the variant
parameters, the rendered content, and a closing marker whose keyword is
identical to the keyword of the opening marker. -/
theorem env_emits_three_ordered_fragments (b : ContentBuilder)
    (e : Environment) (c : StrOrBuilder) :
    ∃ params, (b.env e c).content =
      b.content ++ ("\\begin\x7b" ++ e.toString ++ "\x7d" ++ params ++ "\n") ++
        (c.merge_str ++ "\n") ++ ("\\end\x7b" ++ e.toString ++ "\x7d\n") := by
  cases e
  case Array params =>
    obtain ⟨cols, pos⟩ := params
    cases pos with
    | none =>
      refine ⟨"" ++ "\x7b" ++ cols ++ "\x7d", ?_⟩
      simp only [ContentBuilder.env, content_push_str]
      rw [brace_nl_eq]
      simp only [String.append_assoc]
    | some p =>
      refine ⟨"[" ++ p ++ "]" ++ "\x7b" ++ cols ++ "\x7d", ?_⟩
      simp only [ContentBuilder.env, content_push_str]
      rw [brace_nl_eq]
      simp only [String.append_assoc]
  case Figure params =>
    exact ⟨params.placement, rfl⟩
  case FileContents params =>
    obtain ⟨filename, opt⟩ := params
    cases opt with
    | none =>
      refine ⟨"" ++ "\x7b" ++ filename ++ "\x7d", ?_⟩
      simp only [ContentBuilder.env, content_push_str]
      rw [brace_nl_eq]
      simp only [String.append_assoc]
    | some o =>
      refine ⟨"[" ++ o.toString ++ "]" ++ "\x7b" ++ filename ++ "\x7d", ?_⟩
      simp only [ContentBuilder.env, content_push_str]
      rw [brace_nl_eq]
      simp only [String.append_assoc]
  case List params =>
    refine ⟨params.labeling ++ params.spacing, ?_⟩
    simp only [ContentBuilder.env, content_push_str, String.append_assoc]
  case Minipage params =>
    obtain ⟨pos, ht, ip, w⟩ := params
    refine ⟨bracketArgOrEmpty pos ++ bracketArgOrEmpty ht ++
      bracketArgOrEmpty ip ++ "\x7b" ++ w ++ "\x7d", ?_⟩
    cases pos <;> cases ht <;> cases ip <;>
      (simp only [ContentBuilder.env, content_push_str, bracketArgOrEmpty]
       rw [brace_nl_eq]
       simp only [String.append_assoc])
  case Picture params =>
    obtain ⟨⟨sx, sy⟩, off⟩ := params
    cases off with
    | none =>
      refine ⟨("(" ++ sx ++ "," ++ sy ++ ")") ++ "", ?_⟩
      simp only [ContentBuilder.env, content_push_str, String.append_assoc]
    | some o =>
      obtain ⟨ox, oy⟩ := o
      refine ⟨("(" ++ sx ++ "," ++ sy ++ ")") ++
        ("(" ++ ox ++ "," ++ oy ++ ")"), ?_⟩
      simp only [ContentBuilder.env, content_push_str, String.append_assoc]
  case Table params =>
    obtain ⟨placement⟩ := params
    cases placement with
    | none => exact ⟨"", rfl⟩
    | some p => exact ⟨"[" ++ p ++ "]", rfl⟩
  case Tabular params =>
    obtain ⟨cols, pos⟩ := params
    cases pos with
    | none =>
      refine ⟨"" ++ "\x7b" ++ cols ++ "\x7d", ?_⟩
      simp only [ContentBuilder.env, content_push_str]
      rw [brace_nl_eq]
      simp only [String.append_assoc]
    | some p =>
      refine ⟨"[" ++ p ++ "]" ++ "\x7b" ++ cols ++ "\x7d", ?_⟩
      simp only [ContentBuilder.env, content_push_str]
      rw [brace_nl_eq]
      simp only [String.append_assoc]
  case TheBibliography params =>
    obtain ⟨w⟩ := params
    refine ⟨"\x7b" ++ w ++ "\x7d", ?_⟩
    simp only [ContentBuilder.env, content_push_str]
    rw [brace_brace_eq, brace_nl_eq]
    simp only [String.append_assoc]
  all_goals exact ⟨"", rfl⟩

/-- C4: passing a closure produces exactly the same result as passing a
literal string equal to the output the closure accumulates in a fresh
builder: the two StringOrBuilder embeddings merge to the same string, and
title, text_bold, footnote and env applied to either argument yield equal
builders. -/
theorem closure_literal_same_fragment (f : ContentBuilder → ContentBuilder)
    (s : String) (h : (f ContentBuilder.new).build_document = s) :
    StrOrBuilder.merge_str (.builder f) = StrOrBuilder.merge_str (.lit s) ∧
    (∀ b : ContentBuilder, b.title (.builder f) = b.title (.lit s)) ∧
    (∀ b : ContentBuilder, b.text_bold (.builder f) = b.text_bold (.lit s)) ∧
    (∀ b : ContentBuilder, b.footnote (.builder f) = b.footnote (.lit s)) ∧
    (∀ (b : ContentBuilder) (e : Environment),
      b.env e (.builder f) = b.env e (.lit s)) := by
  have hm : StrOrBuilder.merge_str (.builder f) =
      StrOrBuilder.merge_str (.lit s) := h
  refine ⟨hm, fun b => ?_, fun b => ?_, fun b => ?_, fun b e => ?_⟩
  · simp only [ContentBuilder.title, hm]
  · simp only [ContentBuilder.text_bold, hm]
  · simp only [ContentBuilder.footnote, hm]
  · cases e <;> simp only [ContentBuilder.env, hm]

/-- C4 witness: the theorem applied to the closure that appends the
literal "hi" and to the string "hi". -/
theorem closure_literal_same_fragment_witness :
    ((fun b : ContentBuilder => b.add_literal "hi")
      ContentBuilder.new).build_document = "hi" ∧
    (StrOrBuilder.merge_str
        (.builder fun x : ContentBuilder => x.add_literal "hi") =
      StrOrBuilder.merge_str (.lit "hi") ∧
    (∀ b : ContentBuilder,
      b.title (.builder fun x : ContentBuilder => x.add_literal "hi") =
        b.title (.lit "hi")) ∧
    (∀ b : ContentBuilder,
      b.text_bold (.builder fun x : ContentBuilder => x.add_literal "hi") =
        b.text_bold (.lit "hi")) ∧
    (∀ b : ContentBuilder,
      b.footnote (.builder fun x : ContentBuilder => x.add_literal "hi") =
        b.footnote (.lit "hi")) ∧
    (∀ (b : ContentBuilder) (e : Environment),
      b.env e (.builder fun x : ContentBuilder => x.add_literal "hi") =
        b.env e (.lit "hi"))) :=
  ⟨rfl, closure_literal_same_fragment
    (fun x : ContentBuilder => x.add_literal "hi") "hi" rfl⟩

/-- C5: every builder operation is append-only: the buffer content before
the call is a prefix of the buffer content after the call (the new content
is the old content followed by some appended fragment), and build_document
returns exactly the accumulated buffer content. -/
theorem builder_operations_append_only (b : ContentBuilder) :
    b.build_document = b.content ∧
    (∀ dc options, ∃ t,
      (b.set_document_class dc options).content = b.content ++ t) ∧
    (∀ package options, ∃ t,
      (b.use_package package options).content = b.content ++ t) ∧
    (∀ text, ∃ t, (b.add_literal text).content = b.content ++ t) ∧
    (∃ t, b.begin_document.content = b.content ++ t) ∧
    (∃ t, b.end_document.content = b.content ++ t) ∧
    (∀ s, ∃ t, (b.title s).content = b.content ++ t) ∧
    (∀ s, ∃ t, (b.author s).content = b.content ++ t) ∧
    (∃ t, b.maketitle.content = b.content ++ t) ∧
    (∀ s, ∃ t, (b.text_bold s).content = b.content ++ t) ∧
    (∀ s, ∃ t, (b.text_italic s).content = b.content ++ t) ∧
    (∀ s, ∃ t, (b.text_underline s).content = b.content ++ t) ∧
    (∃ t, b.new_line.content = b.content ++ t) ∧
    (∀ s, ∃ t, (b.label s).content = b.content ++ t) ∧
    (∀ s, ∃ t, (b.sectionCmd s).content = b.content ++ t) ∧
    (∀ s, ∃ t, (b.subsection s).content = b.content ++ t) ∧
    (∀ s, ∃ t, (b.subsubsection s).content = b.content ++ t) ∧
    (∀ s, ∃ t, (b.paragraph s).content = b.content ++ t) ∧
    (∀ s, ∃ t, (b.subparagraph s).content = b.content ++ t) ∧
    (∀ s, ∃ t, (b.footnote s).content = b.content ++ t) ∧
    (∀ citation subcitation, ∃ t,
      (b.cite citation subcitation).content = b.content ++ t) ∧
    (∀ s, ∃ t, (b.ref_label s).content = b.content ++ t) ∧
    (∀ text color cm, ∃ t,
      (b.text_color text color cm).content = b.content ++ t) ∧
    (∀ s, ∃ t, (b.hspace s).content = b.content ++ t) ∧
    (∀ s, ∃ t, (b.vspace s).content = b.content ++ t) ∧
    (∀ s, ∃ t, (b.includeCmd s).content = b.content ++ t) ∧
    (∀ s, ∃ t, (b.input s).content = b.content ++ t) ∧
    (∃ t, b.clear_page.content = b.content ++ t) ∧
    (∃ t, b.new_page.content = b.content ++ t) ∧
    (∃ t, b.line_break.content = b.content ++ t) ∧
    (∃ t, b.page_break.content = b.content ++ t) ∧
    (∃ t, b.no_indent.content = b.content ++ t) ∧
    (∃ t, b.centering.content = b.content ++ t) ∧
    (∀ s, ∃ t, (b.itemize s).content = b.content ++ t) ∧
    (∀ e c, ∃ t, (b.env e c).content = b.content ++ t) := by
  refine ⟨rfl, fun dc options => ?_, fun package options => ?_,
    fun text => ⟨_, rfl⟩, ⟨_, rfl⟩, ⟨_, rfl⟩, fun s => ⟨_, rfl⟩,
    fun s => ⟨_, rfl⟩, ⟨_, rfl⟩, fun s => ⟨_, rfl⟩, fun s => ⟨_, rfl⟩,
    fun s => ⟨_, rfl⟩, ⟨_, rfl⟩, fun s => ⟨_, rfl⟩, fun s => ⟨_, rfl⟩,
    fun s => ⟨_, rfl⟩, fun s => ⟨_, rfl⟩, fun s => ⟨_, rfl⟩,
    fun s => ⟨_, rfl⟩, fun s => ⟨_, rfl⟩,
    fun citation subcitation => ⟨_, rfl⟩, fun s => ⟨_, rfl⟩,
    fun text color cm => ⟨_, rfl⟩, fun s => ⟨_, rfl⟩, fun s => ⟨_, rfl⟩,
    fun s => ⟨_, rfl⟩, fun s => ⟨_, rfl⟩, ⟨_, rfl⟩, ⟨_, rfl⟩, ⟨_, rfl⟩,
    ⟨_, rfl⟩, ⟨_, rfl⟩, ⟨_, rfl⟩, fun s => ⟨_, rfl⟩, fun e c => ?_⟩
  · cases options with
    | nil => exact ⟨_, rfl⟩
    | cons o os => exact ⟨_, rfl⟩
  · cases options with
    | nil => exact ⟨_, rfl⟩
    | cons o os => exact ⟨_, rfl⟩
  · cases e <;> exact ⟨_, content_push3 b _ _ _⟩

/-- C7: the fixed-marker operations begin_document, end_document,
maketitle, clear_page, new_page, line_break, page_break, no_indent,
centering and new_line each append one exact literal string, independent
of the prior builder state. -/
theorem fixed_markers_emit_exact_literals (b : ContentBuilder) :
    b.begin_document.content = b.content ++ "\\begin\x7bdocument\x7d\n" ∧
    b.end_document.content = b.content ++ "\\end\x7bdocument\x7d\n" ∧
    b.maketitle.content = b.content ++ "\\maketitle\n" ∧
    b.clear_page.content = b.content ++ "\\clearpage\n" ∧
    b.new_page.content = b.content ++ "\\newpage\n" ∧
    b.line_break.content = b.content ++ "\\linebreak\n" ∧
    b.page_break.content = b.content ++ "\\pagebreak\n" ∧
    b.no_indent.content = b.content ++ "\\noindent\n" ∧
    b.centering.content = b.content ++ "\\centering\n" ∧
    b.new_line.content = b.content ++ "\\\\\n" :=
  ⟨rfl, rfl, rfl, rfl, rfl, rfl, rfl, rfl, rfl, rfl⟩

/-- C8: no operation can fail and no validation or escaping is performed:
for every input string, including strings holding backslashes, braces or
brackets, the operations are total functions that substitute the argument
verbatim into their fixed templates. -/
theorem operations_total_verbatim_no_escaping (b : ContentBuilder)
    (s package : String) (options : List String) :
    (b.add_literal s).content = b.content ++ s ∧
    (b.title (.lit s)).content =
      b.content ++ ("\\title\x7b" ++ s ++ "\x7d\n") ∧
    (b.text_bold (.lit s)).content =
      b.content ++ ("\\textbf\x7b" ++ s ++ "\x7d") ∧
    (b.label (.lit s)).content =
      b.content ++ ("\\label\x7b" ++ s ++ "\x7d\n") ∧
    (b.use_package package options).content =
      b.content ++ directiveFragment "usepackage" options package := by
  refine ⟨rfl, rfl, rfl, rfl, ?_⟩
  cases options with
  | nil => rfl
  | cons o os => rfl

/-- C9: a closure argument is always rendered against a fresh empty
builder: its merged string is the output of running it on a new builder,
and for each operation the appended fragment is one fixed string that does
not depend on the outer builder, so outer builders with different buffer
contents receive the identical fragment. -/
theorem closure_renders_against_fresh_builder
    (f : ContentBuilder → ContentBuilder) :
    StrOrBuilder.merge_str (.builder f) =
      (f ContentBuilder.new).build_document ∧
    (∃ frag, ∀ b : ContentBuilder,
      (b.title (.builder f)).content = b.content ++ frag) ∧
    (∃ frag, ∀ b : ContentBuilder,
      (b.text_bold (.builder f)).content = b.content ++ frag) ∧
    (∀ e : Environment, ∃ frag, ∀ b : ContentBuilder,
      (b.env e (.builder f)).content = b.content ++ frag) := by
  refine ⟨rfl,
    ⟨"\\title\x7b" ++ StrOrBuilder.merge_str (.builder f) ++ "\x7d\n",
      fun b => rfl⟩,
    ⟨"\\textbf\x7b" ++ StrOrBuilder.merge_str (.builder f) ++ "\x7d",
      fun b => rfl⟩,
    fun e => ?_⟩
  cases e <;> exact ⟨_, fun b => content_push3 b _ _ _⟩

/-- C10: cite with subcitation None appends exactly the cite command with
the braced citation and no bracket segment, and text_color with
color_model None appends exactly the textcolor command with the braced
color and text and no bracket segment. -/
theorem cite_textcolor_none_no_bracket (b : ContentBuilder)
    (citation text color : StrOrBuilder) :
    (b.cite citation none).content =
      b.content ++ ("\\cite\x7b" ++ citation.merge_str ++ "\x7d") ∧
    (b.text_color text color none).content =
      b.content ++ ("\\textcolor\x7b" ++ color.merge_str ++ "\x7d\x7b" ++
        text.merge_str ++ "\x7d") :=
  ⟨rfl, rfl⟩

/-- C6 counterexample: with all three optional minipage arguments absent,
the opening marker still contains three empty bracket pairs, so an absent
optional argument does contribute a bracket segment, contrary to the
claim. -/
theorem minipage_absent_optionals_counterexample :
    (ContentBuilder.new.env
      (.Minipage ⟨none, none, none, "5cm"⟩) (.lit "x")).content =
      "\\begin\x7bminipage\x7d[][][]\x7b5cm\x7d\nx\n\\end\x7bminipage\x7d\n" ∧
    ¬ (ContentBuilder.new.env
      (.Minipage ⟨none, none, none, "5cm"⟩) (.lit "x")).content =
      "\\begin\x7bminipage\x7d\x7b5cm\x7d\nx\n\\end\x7bminipage\x7d\n" := by
  decide

/-- C6 amended: for every Minipage emission the opening marker carries one
bracket segment per optional argument, holding the supplied value when
present and empty when absent, followed by the required width in braces. -/
theorem minipage_optional_args_bracket_format (b : ContentBuilder)
    (params : MinipageParams) (c : StrOrBuilder) :
    (b.env (.Minipage params) c).content =
      b.content ++ ("\\begin\x7b" ++ (Environment.Minipage params).toString ++
        "\x7d" ++ bracketArgOrEmpty params.position ++
        bracketArgOrEmpty params.height ++
        bracketArgOrEmpty params.inner_pos ++ "\x7b" ++ params.width ++
        "\x7d\n") ++
      (c.merge_str ++ "\n") ++
      ("\\end\x7b" ++ (Environment.Minipage params).toString ++ "\x7d\n") := by
  obtain ⟨pos, ht, ip, w⟩ := params
  cases pos <;> cases ht <;> cases ip <;> rfl

end Rusttex
